import Mathlib

/-!
Verification of the prompt-optimization pipeline.

Shallow embedding of the Python sources under `pipeline/`:
* `scoring_engine.py`   → `score_prompt`
* `intent_handler.py`   → `detect_intents`, `detect_intent`
* `optimizer_pipeline.py` → `build_instructions_for_intents`, `optimize_prompt`
* `decomposition_engine.py` → `decompose_prompt`
* `llm_interface.py`    → `call_gemini`
* the rule-based ambiguity backend (absent from the sources) is modelled
  from the spec as `rule_is_ambiguous`.

Python strings are embedded as Lean `String` (whose data is a `List Char`
on this toolchain); Python's substring test `pat in s` is `strContains`,
`str.split()` is `pyWords`, `str.lower()` is `lowerStr`.  LLM-backed
collaborators (`needs_context`, `is_ambiguous`, `llm_rewrite_prompt`,
`decompose_prompt`) are abstracted as an environment of oracle functions,
since their behaviour is an external service response.
-/

namespace PromptOpt

/-- Python's `pat in s` on character lists: `pat` occurs contiguously in `l`. -/
def listContainsSeq (pat : List Char) : List Char → Bool
  | [] => pat.isEmpty
  | a :: t => pat.isPrefixOf (a :: t) || listContainsSeq pat t

/-- Python's substring test `pat in s`. -/
def strContains (s pat : String) : Bool :=
  listContainsSeq pat.toList s.toList

/-- Python's `str.lower()` (ASCII case folding, as `Char.toLower`). -/
def lowerStr (s : String) : String :=
  String.mk (s.toList.map Char.toLower)

/-- Splitter for Python's `str.split()`: whitespace runs separate words,
empty fragments are dropped.  `cur` is the current word accumulated in
reverse. -/
def pyWordsAux : List Char → List Char → List (List Char)
  | [], cur => if cur.isEmpty then [] else [cur.reverse]
  | c :: t, cur =>
    if c.isWhitespace then
      if cur.isEmpty then pyWordsAux t [] else cur.reverse :: pyWordsAux t []
    else
      pyWordsAux t (c :: cur)

/-- Python's `s.split()` (no separator: split on whitespace, drop empties). -/
def pyWords (s : String) : List String :=
  (pyWordsAux s.toList []).map String.mk

/-- `len(s.split())`. -/
def pyWordCount (s : String) : Nat :=
  (pyWords s).length

/-! ## scoring_engine.py -/

/-- Result dictionary of `score_prompt` (`structure` is a Lean keyword, so
that sub-score is the field `structureScore`). -/
structure ScoreReport where
  clarity : Nat
  specificity : Nat
  structureScore : Nat
  total_score : Nat
  deriving Repr, DecidableEq

def action_verbs : List String := ["explain", "compare", "build", "analyze", "write"]

def vague_words : List String := ["something", "stuff", "things"]

def technical_words : List String := ["python", "algorithm", "neural", "database", "model"]

def constraint_words : List String := ["step", "example", "code", "table"]

def punctuation_marks : List String := ["?", ".", ":"]

def formatting_words : List String := ["list", "table", "bullet", "step"]

/-- `if prompt and prompt[0].isupper()`: the +1 structure bonus for a
leading capital letter. -/
def leadingUpperBonus (prompt : String) : Nat :=
  match prompt.toList with
  | [] => 0
  | c :: _ => if c.isUpper then 1 else 0

/-- `scoring_engine.score_prompt`: additive boolean checks per criterion,
each clamped to 5, summed into `total_score`. -/
def score_prompt (prompt : String) : ScoreReport :=
  let lower_prompt := lowerStr prompt
  let word_count := pyWordCount prompt
  let clarity :=
    min ((if word_count > 5 then 2 else 0)
      + (if action_verbs.any (fun v => strContains lower_prompt v) then 2 else 0)
      + (if !(vague_words.any (fun v => strContains lower_prompt v)) then 1 else 0)) 5
  let specificity :=
    min ((if technical_words.any (fun t => strContains lower_prompt t) then 2 else 0)
      + (if constraint_words.any (fun c => strContains lower_prompt c) then 2 else 0)
      + (if word_count > 8 then 1 else 0)) 5
  let structureScore :=
    min ((if punctuation_marks.any (fun p => strContains prompt p) then 2 else 0)
      + (if formatting_words.any (fun f => strContains lower_prompt f) then 2 else 0)
      + leadingUpperBonus prompt) 5
  { clarity := clarity
    specificity := specificity
    structureScore := structureScore
    total_score := clarity + specificity + structureScore }

/-! ## intent_handler.py -/

def explanation_keywords : List String :=
  ["explain", "describe", "what is", "define", "tell me about", "how does",
   "what does", "clarify", "elaborate", "illustrate", "break down", "walk me through",
   "help me understand", "give an overview", "introduce", "summarize", "outline",
   "can you explain", "please describe", "what are", "what\x27s", "meaning of",
   "definition of", "concept of", "idea behind", "principle of", "theory of",
   "how to understand", "make sense of", "shed light on", "elucidate", "expound",
   "detail", "specify", "characterize", "interpret", "demystify", "unpack",
   "talk about", "discuss", "cover", "go over", "run through", "provide details",
   "give me information", "inform me about", "enlighten me", "teach me", "educate me"]

def comparison_keywords : List String :=
  ["compare", "difference between", "vs", "versus", "contrast", "distinguish",
   "compare and contrast", "differentiate", "how does X differ from Y",
   "what\x27s the difference", "similarities and differences", "better than",
   "worse than", "superior to", "inferior to", "advantages over", "disadvantages of",
   "X or Y", "which is better", "which should I choose", "preferred over",
   "relative to", "in comparison to", "compared to", "as opposed to", "rather than",
   "instead of", "alternative to", "versus each other", "side by side",
   "head to head", "match up", "stack up against", "measure against", "weigh against",
   "parallel between", "correlation between", "relationship between", "likeness",
   "disparity", "distinction", "divergence", "variance", "discrepancy"]

def coding_keywords : List String :=
  ["code", "python", "java", "implement", "algorithm", "function", "javascript",
   "c++", "programming", "script", "program", "develop", "build", "create",
   "write code", "debug", "fix bug", "error", "syntax", "compile", "execute",
   "run", "class", "method", "variable", "loop", "array", "list", "dictionary",
   "object", "API", "library", "framework", "module", "package", "import",
   "return", "parameter", "argument", "string", "integer", "boolean", "float",
   "data structure", "recursion", "iteration", "conditional", "if statement",
   "for loop", "while loop", "try catch", "exception", "async", "await",
   "callback", "promise", "regex", "sql", "database", "query", "html", "css",
   "react", "node", "django", "flask", "backend", "frontend", "fullstack",
   "git", "github", "repository", "commit", "push", "pull", "merge", "branch",
   "refactor", "optimize", "test", "unit test", "integration", "deployment",
   "docker", "kubernetes", "CI/CD", "REST API", "GraphQL", "JSON", "XML",
   "OOP", "functional programming", "lambda", "closure", "scope", "inheritance",
   "polymorphism", "encapsulation", "abstraction", "design pattern", "SOLID"]

def creative_keywords : List String :=
  ["story", "poem", "imagine", "creative", "fiction", "write a story",
   "tale", "narrative", "plot", "character", "scene", "dialogue", "novel",
   "short story", "fantasy", "sci-fi", "science fiction", "romance", "thriller",
   "mystery", "adventure", "drama", "comedy", "satire", "parody", "fable",
   "legend", "myth", "fairy tale", "bedtime story", "children\x27s story",
   "write a poem", "haiku", "sonnet", "limerick", "verse", "rhyme", "stanza",
   "ballad", "ode", "elegy", "free verse", "acrostic", "epic", "lyric",
   "create a character", "develop a plot", "world-building", "setting",
   "protagonist", "antagonist", "conflict", "climax", "resolution", "twist",
   "creative writing", "fiction writing", "compose", "craft", "invent",
   "dream up", "conjure", "envision", "visualize", "brainstorm ideas",
   "screenplay", "script", "monologue", "soliloquy", "play", "act", "scene",
   "song lyrics", "rap", "metaphor", "simile", "imagery", "symbolism",
   "allegory", "personification", "flashback", "foreshadowing", "narrator",
   "point of view", "first person", "third person", "omniscient", "backstory",
   "arc", "theme", "motif", "tone", "mood", "atmosphere", "genre"]

def analysis_keywords : List String :=
  ["analyze", "analysis", "pros and cons", "evaluate", "assess", "examine",
   "review", "critique", "judge", "appraise", "scrutinize", "investigate",
   "study", "inspect", "explore", "dissect", "parse", "deconstruct",
   "advantages and disadvantages", "benefits and drawbacks", "strengths and weaknesses",
   "upsides and downsides", "positive and negative", "merits and demerits",
   "for and against", "arguments for", "arguments against", "case for", "case against",
   "weigh the options", "consider the implications", "assess the impact",
   "evaluate the effectiveness", "determine the value", "measure the success",
   "critical analysis", "in-depth analysis", "detailed examination", "thorough review",
   "comprehensive assessment", "systematic evaluation", "objective analysis",
   "interpret the data", "draw conclusions", "infer", "deduce", "reason",
   "think critically", "question", "challenge", "verify", "validate", "test",
   "evidence for", "evidence against", "support for", "opposition to",
   "feasibility", "viability", "practicality", "effectiveness", "efficiency",
   "performance", "quality", "reliability", "validity", "credibility",
   "trade-offs", "opportunity cost", "risk assessment", "cost-benefit",
   "SWOT analysis", "strengths", "weaknesses", "opportunities", "threats",
   "implications", "ramifications", "consequences", "outcomes", "results",
   "findings", "observations", "insights", "patterns", "trends", "correlations"]

def question_keywords : List String :=
  ["what", "why", "how", "when", "where", "who", "which", "whose", "whom",
   "can you", "could you", "would you", "will you", "should I", "do you",
   "is it", "are there", "does it", "has it", "have you", "did you",
   "question about", "I\x27m wondering", "I want to know", "tell me", "show me",
   "help me", "assist me", "guide me", "advise me", "suggest", "recommend"]

def instruction_keywords : List String :=
  ["create", "make", "build", "generate", "produce", "develop", "design",
   "construct", "formulate", "devise", "draft", "compose", "prepare",
   "give me", "provide", "show", "display", "present", "demonstrate",
   "list", "enumerate", "outline", "summarize", "condense", "shorten",
   "expand", "elaborate", "extend", "lengthen", "add to", "include",
   "remove", "delete", "exclude", "omit", "filter", "extract", "isolate",
   "convert", "transform", "translate", "adapt", "modify", "change",
   "update", "revise", "edit", "improve", "enhance", "optimize", "refine",
   "simplify", "clarify", "restructure", "reorganize", "reformat", "rewrite"]

def research_keywords : List String :=
  ["research", "find information", "look up", "search for", "investigate",
   "gather data", "collect information", "source", "reference", "citation",
   "study on", "report about", "statistics", "data", "facts", "figures",
   "evidence", "documentation", "literature review", "survey", "poll",
   "recent developments", "latest news", "current trends", "up-to-date",
   "scholarly", "academic", "peer-reviewed", "scientific", "empirical",
   "case study", "experiment", "trial", "test results", "findings"]

def problem_solving_keywords : List String :=
  ["solve", "fix", "troubleshoot", "resolve", "address", "handle",
   "deal with", "overcome", "work around", "find a solution", "answer",
   "remedy", "correct", "repair", "debug", "diagnose", "identify the issue",
   "problem with", "issue with", "error in", "bug in", "challenge",
   "difficulty", "obstacle", "roadblock", "bottleneck", "how do I fix",
   "how to solve", "what\x27s wrong", "why isn\x27t", "not working", "failing"]

def tutorial_keywords : List String :=
  ["tutorial", "guide", "how-to", "step by step", "walkthrough", "instructions",
   "teach me", "show me how", "learn", "training", "course", "lesson",
   "beginner", "for beginners", "getting started", "introduction to",
   "basics of", "fundamentals", "start with", "first steps", "quickstart",
   "best practices", "tips", "tricks", "techniques", "methods", "approaches"]

def summarization_keywords : List String :=
  ["summarize", "summary", "brief", "overview", "recap", "synopsis",
   "abstract", "digest", "condensed version", "tldr", "in short", "in brief",
   "key points", "main ideas", "highlights", "essence", "gist", "nutshell",
   "boil down", "distill", "compress", "reduce", "shorten", "abbreviate"]

/-- Insertion order of the `intent_keywords` dict in `detect_intents`. -/
def intentOrder : List String :=
  ["explanation", "comparison", "coding", "creative", "analysis", "question",
   "instruction", "research", "problem_solving", "tutorial", "summarization"]

/-- The `intent_keywords` dict as a lookup function. -/
def intentKeywords : String → List String
  | "explanation" => explanation_keywords
  | "comparison" => comparison_keywords
  | "coding" => coding_keywords
  | "creative" => creative_keywords
  | "analysis" => analysis_keywords
  | "question" => question_keywords
  | "instruction" => instruction_keywords
  | "research" => research_keywords
  | "problem_solving" => problem_solving_keywords
  | "tutorial" => tutorial_keywords
  | "summarization" => summarization_keywords
  | _ => []

def priority_order : List String :=
  ["comparison", "coding", "analysis", "tutorial", "explanation",
   "research", "summarization", "creative", "instruction", "question",
   "problem_solving", "general"]

/-- The sort key of `detected.sort(...)`: index in `priority_order` when
present, its length (12) otherwise — exactly `List.indexOf`. -/
def priorityIdx (x : String) : Nat :=
  priority_order.indexOf x

/-- The comparison by which `detect_intents` sorts matched labels. -/
def priRel (a b : String) : Prop :=
  priorityIdx a ≤ priorityIdx b

instance : DecidableRel priRel :=
  fun a b => inferInstanceAs (Decidable (priorityIdx a ≤ priorityIdx b))

instance : IsTotal String priRel :=
  ⟨fun a b => Nat.le_total (priorityIdx a) (priorityIdx b)⟩

instance : IsTrans String priRel :=
  ⟨fun _ _ _ h1 h2 => Nat.le_trans h1 h2⟩

/-- The `detected` list of `detect_intents`: iterate the keyword dict in
insertion order and keep each label whose keyword list has a
(case-insensitive) substring hit; the `not in detected` dedup guard is
vacuous since each dict key occurs once. -/
def matchedIntents (prompt : String) : List String :=
  intentOrder.filter
    (fun name => (intentKeywords name).any (fun k => strContains (lowerStr prompt) k))

/-- `intent_handler.detect_intents`: matched labels sorted by priority,
or `["general"]` when nothing matched.  Python's `list.sort` is stable,
as is insertion sort. -/
def detect_intents (prompt : String) : List String :=
  let detected := matchedIntents prompt
  if detected.isEmpty then ["general"]
  else List.insertionSort priRel detected

/-- `intent_handler.detect_intent`: `intents[0] if intents else "general"`. -/
def detect_intent (prompt : String) : String :=
  match detect_intents prompt with
  | [] => "general"
  | x :: _ => x

/-! ## optimizer_pipeline.py -/

def instrExplanation : String := "Explain clearly in structured bullet points."
def instrComparison : String :=
  "Present the comparison in a table covering key differences and similarities."
def instrCoding : String := "Provide clean, well-commented code and explain the logic."
def instrAnalysis : String := "Include analytical insights, pros, cons, and evaluation."
def instrSummarization : String := "Provide a concise summary highlighting key ideas."
def instrTutorial : String := "Present the explanation step-by-step like a tutorial."
def instrCreative : String := "Use engaging and vivid language."
def instrDefault : String := "Provide a clear and detailed response."

/-- The `instructions` list built up by the membership-guarded appends of
`_build_instructions_for_intents`, before the default fallback. -/
def instructionsRaw (intents : List String) : List String :=
  (if "explanation" ∈ intents then [instrExplanation] else [])
  ++ (if "comparison" ∈ intents then [instrComparison] else [])
  ++ (if "coding" ∈ intents then [instrCoding] else [])
  ++ (if "analysis" ∈ intents then [instrAnalysis] else [])
  ++ (if "summarization" ∈ intents then [instrSummarization] else [])
  ++ (if "tutorial" ∈ intents then [instrTutorial] else [])
  ++ (if "creative" ∈ intents ∧ "coding" ∉ intents then [instrCreative] else [])

/-- `optimizer_pipeline._build_instructions_for_intents`: the sequence of
membership-guarded appends, then the default fallback when nothing was
appended. -/
def build_instructions_for_intents (intents : List String) : List String :=
  if instructionsRaw intents = [] then [instrDefault] else instructionsRaw intents

/-- Oracles for the LLM-backed collaborators invoked by `optimize_prompt`:
their results are external service responses, so the pipeline is verified
for every possible oracle behaviour. -/
structure Env where
  needsContext : String → Bool
  isAmbiguous : String → Bool
  rewrite : String → String
  decompose : String → List String

/-- Pipeline stages, recorded so that early termination ("stage not
executed") is a statement about the run, not about the output string. -/
inductive Stage where
  | contextAttach
  | scoring
  | ambiguityCheck
  | rewriteDecision
  | rewriteCall
  | decomposition
  | intentStage
  | assembly
  deriving Repr, DecidableEq

def lowScoreMessage : String :=
  "The request is unclear or too vague. Please provide more details about what you want. For example, specify the topic, format, or type of output."

def ambiguousMessage : String :=
  "Your request is too broad or ambiguous. Please clarify the domain or context. For example, specify whether this relates to technology, business, science, or another field."

/-- STEP 1 of `optimize_prompt`: `if previous_context and needs_context(...)`
(`None` and the empty string are both falsy in Python). -/
def attachContext (env : Env) (raw_prompt : String) (previous_context : Option String) : String :=
  match previous_context with
  | none => raw_prompt
  | some ctx =>
    if ctx != "" && env.needsContext raw_prompt then
      "Considering the previous context: " ++ ctx ++ ". Now perform this request: " ++ raw_prompt
    else raw_prompt

/-- One `Sub-Task:` block of the assembled output (loop body of STEP 7/8). -/
def formatSubtask (subtask : String) : String :=
  let intents := detect_intents subtask
  let instructions := build_instructions_for_intents intents
  let instructions_text := String.intercalate "\n" (instructions.map (fun inst => "- " ++ inst))
  "Sub-Task: " ++ subtask ++ "\nInstructions:\n" ++ instructions_text ++ "\n\n"

/-- `optimizer_pipeline.optimize_prompt`, instrumented with the list of
pipeline stages that actually ran.  The returned string is exactly the
function's return value. -/
def optimize_prompt (env : Env) (raw_prompt : String) (previous_context : Option String) :
    String × List Stage :=
  let p1 := attachContext env raw_prompt previous_context
  let score_data := score_prompt p1
  let total_score := score_data.total_score
  if total_score ≤ 3 then
    (lowScoreMessage, [Stage.contextAttach, Stage.scoring])
  else
    let ambiguity_flag := env.isAmbiguous p1
    if ambiguity_flag then
      (ambiguousMessage, [Stage.contextAttach, Stage.scoring, Stage.ambiguityCheck])
    else
      let low_quality := decide (total_score < 6)
      let is_vague := ambiguity_flag
      let llm_triggered := low_quality || is_vague
      let p2 := if llm_triggered then env.rewrite p1 else p1
      let subtasks := env.decompose p2
      let header := if llm_triggered then "[LLM Rewrite Triggered]\n\n" else ""
      let body := String.join (subtasks.map formatSubtask)
      (header ++ body,
        [Stage.contextAttach, Stage.scoring, Stage.ambiguityCheck, Stage.rewriteDecision]
          ++ (if llm_triggered then [Stage.rewriteCall] else [])
          ++ [Stage.decomposition, Stage.intentStage, Stage.assembly])

/-! ## decomposition_engine.py -/

/-- `decomposition_engine.decompose_prompt`.  The external analysis
response is read as `result.get("subtasks", [prompt])`: `subtasksField` is
the value of the `"subtasks"` key of the parsed JSON dict when present
(`none` when the key is absent), so the default applies only to a missing
key, not to a present-but-empty list. -/
def decompose_prompt (subtasksField : Option (List String)) (prompt : String) : List String :=
  subtasksField.getD [prompt]

/-! ## llm_interface.py -/

/-- Outcome of one `model.generate_content` attempt: a text response or a
raised exception, identified by its string rendering `str(e)`. -/
inductive GenOutcome where
  | success (text : String)
  | failure (err : String)
  deriving Repr, DecidableEq

/-- `"429" in str(e) or "RESOURCE_EXHAUSTED" in str(e)`. -/
def isThrottling (err : String) : Bool :=
  strContains err "429" || strContains err "RESOURCE_EXHAUSTED"

/-- The retry loop of `call_gemini`: `attempt` is the index of the next
attempt, `remaining` the number of catching loop iterations left.  When
the loop is exhausted a final uncaught attempt is made.  Also returns the
list of backoff delays slept (`2**attempt + 1` for each throttled retry). -/
def call_gemini_run (responses : Nat → GenOutcome) :
    Nat → Nat → Except String String × List Nat
  | attempt, 0 =>
    (match responses attempt with
     | GenOutcome.success t => Except.ok t
     | GenOutcome.failure e => Except.error e, [])
  | attempt, r + 1 =>
    match responses attempt with
    | GenOutcome.success t => (Except.ok t, [])
    | GenOutcome.failure e =>
      if isThrottling e then
        let rest := call_gemini_run responses (attempt + 1) r
        (rest.1, (2 ^ attempt + 1) :: rest.2)
      else (Except.error e, [])

/-- `llm_interface.call_gemini` over a sequence of attempt outcomes;
`max_retries` defaults to 3 in the source. -/
def call_gemini (responses : Nat → GenOutcome) (max_retries : Nat) :
    Except String String × List Nat :=
  call_gemini_run responses 0 max_retries

/-! ## Rule-based ambiguity backend -/

/-- Modelled from the spec: the rule-based AmbiguityDetector backend is
missing from the sources (`ambiguity_detector.py` contains only the
LLM-backed detector).  §4.2 fixes its vague-word set only by example
("something"); taken as the scorer's vague filler words. -/
def ambVagueWords : List String := ["something", "stuff", "things"]

/-- Modelled from the spec: the fixed domain-keyword set of the rule-based
AmbiguityDetector — the scorer's technical terms together with the example
domains named in the clarification message. -/
def domainKeywords : List String :=
  ["python", "algorithm", "neural", "database", "model",
   "technology", "business", "science"]

/-- Modelled from the spec: the rule-based `is_ambiguous` of §4.2, "flag =
true if word count < 3, OR (request contains any of a fixed vague-word set
AND none of a fixed domain-keyword set); otherwise false" (the detector in
the sources delegates this boolean to the external model instead). -/
def rule_is_ambiguous (prompt : String) : Bool :=
  pyWordCount prompt < 3
    || ((ambVagueWords.any (fun v => strContains (lowerStr prompt) v))
        && !(domainKeywords.any (fun d => strContains (lowerStr prompt) d)))

/-- A concrete oracle environment for closed evaluations: no context
needed, nothing flagged ambiguous, identity rewrite, no decomposition
split. -/
def testEnv : Env :=
  { needsContext := fun _ => false
    isAmbiguous := fun _ => false
    rewrite := fun s => s
    decompose := fun s => [s] }

/-! ## Helper lemmas -/

theorem all_of_listContainsSeq {p : Char → Bool} :
    ∀ (l pat : List Char), l.all p = true → listContainsSeq pat l = true → pat.all p = true
  | [], pat, _, h => by
    simp only [listContainsSeq, List.isEmpty_iff] at h
    subst h
    rfl
  | a :: t, pat, hall, h => by
    simp only [listContainsSeq, Bool.or_eq_true] at h
    rcases h with h | h
    · have hsub := (List.isPrefixOf_iff_prefix.mp h).sublist
      rw [List.all_eq_true] at hall ⊢
      exact fun x hx => hall x (hsub.subset hx)
    · have htall : t.all p = true := by
        rw [List.all_cons, Bool.and_eq_true] at hall
        exact hall.2
      exact all_of_listContainsSeq t pat htall h

theorem strContains_eq_false_of_ws (s pat : String)
    (hs : s.toList.all Char.isWhitespace = true)
    (hp : pat.toList.all Char.isWhitespace = false) :
    strContains s pat = false := by
  cases hb : strContains s pat with
  | false => rfl
  | true =>
    have hall : pat.toList.all Char.isWhitespace = true :=
      all_of_listContainsSeq s.toList pat.toList hs hb
    rw [hall] at hp
    exact absurd hp (by decide)

theorem any_contains_eq_false (s : String)
    (hs : s.toList.all Char.isWhitespace = true)
    (L : List String) (hL : ∀ x ∈ L, x.toList.all Char.isWhitespace = false) :
    (L.any fun v => strContains s v) = false := by
  rw [List.any_eq_false]
  intro x hx
  rw [strContains_eq_false_of_ws s x hs (hL x hx)]
  exact Bool.false_ne_true

theorem whitespace_char_cases (c : Char) (h : c.isWhitespace = true) :
    c = ' ' ∨ c = '\t' ∨ c = '\r' ∨ c = '\n' := by
  simp [Char.isWhitespace] at h
  tauto

theorem toLower_ws (c : Char) (h : c.isWhitespace = true) :
    (Char.toLower c).isWhitespace = true := by
  rcases whitespace_char_cases c h with h | h | h | h <;> subst h <;> decide

theorem not_upper_of_ws (c : Char) (h : c.isWhitespace = true) :
    c.isUpper = false := by
  rcases whitespace_char_cases c h with h | h | h | h <;> subst h <;> decide

theorem lowerStr_toList (s : String) :
    (lowerStr s).toList = s.toList.map Char.toLower := rfl

theorem lowerStr_all_ws (s : String)
    (hs : s.toList.all Char.isWhitespace = true) :
    (lowerStr s).toList.all Char.isWhitespace = true := by
  rw [lowerStr_toList]
  rw [List.all_eq_true] at hs ⊢
  intro x hx
  rcases List.mem_map.mp hx with ⟨c, hc, rfl⟩
  exact toLower_ws c (hs c hc)

theorem pyWordsAux_ws :
    ∀ (l : List Char), l.all Char.isWhitespace = true → pyWordsAux l [] = []
  | [], _ => rfl
  | c :: t, h => by
    rw [List.all_cons, Bool.and_eq_true] at h
    simp only [pyWordsAux, h.1, if_true, List.isEmpty_nil]
    exact pyWordsAux_ws t h.2

theorem pyWordCount_ws (s : String)
    (hs : s.toList.all Char.isWhitespace = true) : pyWordCount s = 0 := by
  unfold pyWordCount pyWords
  rw [pyWordsAux_ws s.toList hs]
  rfl

theorem leadingUpperBonus_ws (s : String)
    (hs : s.toList.all Char.isWhitespace = true) : leadingUpperBonus s = 0 := by
  unfold leadingUpperBonus
  cases h : s.toList with
  | nil => rfl
  | cons c t =>
    rw [h, List.all_cons, Bool.and_eq_true] at hs
    simp [not_upper_of_ws c hs.1]

/-! ## Claim theorems -/

/-- C2: for every input string, `score_prompt` returns sub-scores
clarity, specificity and structure each at most 5 (they are naturals, so
each lies in [0,5]), and `total_score` equals their sum, hence lies in
[0,15]. -/
theorem score_prompt_bounds (prompt : String) :
    (score_prompt prompt).clarity ≤ 5 ∧
    (score_prompt prompt).specificity ≤ 5 ∧
    (score_prompt prompt).structureScore ≤ 5 ∧
    (score_prompt prompt).total_score =
      (score_prompt prompt).clarity + (score_prompt prompt).specificity +
        (score_prompt prompt).structureScore ∧
    (score_prompt prompt).total_score ≤ 15 := by
  refine ⟨Nat.min_le_right _ 5, Nat.min_le_right _ 5, Nat.min_le_right _ 5, rfl, ?_⟩
  have h1 : (score_prompt prompt).clarity ≤ 5 := Nat.min_le_right _ 5
  have h2 : (score_prompt prompt).specificity ≤ 5 := Nat.min_le_right _ 5
  have h3 : (score_prompt prompt).structureScore ≤ 5 := Nat.min_le_right _ 5
  have ht : (score_prompt prompt).total_score =
      (score_prompt prompt).clarity + (score_prompt prompt).specificity +
        (score_prompt prompt).structureScore := rfl
  omega

/-- C1: in strict mode, whenever the (context-attached) request's total
score is at most 3, `optimize_prompt` returns the fixed "unclear or too
vague" clarification message, and neither the ambiguity check nor the
rewrite decision, rewrite call, decomposition or per-sub-task intent
stages run. -/
theorem strict_low_score_early_exit (env : Env) (raw_prompt : String)
    (previous_context : Option String)
    (h : (score_prompt (attachContext env raw_prompt previous_context)).total_score ≤ 3) :
    (optimize_prompt env raw_prompt previous_context).1 = lowScoreMessage ∧
    Stage.ambiguityCheck ∉ (optimize_prompt env raw_prompt previous_context).2 ∧
    Stage.rewriteDecision ∉ (optimize_prompt env raw_prompt previous_context).2 ∧
    Stage.rewriteCall ∉ (optimize_prompt env raw_prompt previous_context).2 ∧
    Stage.decomposition ∉ (optimize_prompt env raw_prompt previous_context).2 ∧
    Stage.intentStage ∉ (optimize_prompt env raw_prompt previous_context).2 := by
  have hop : optimize_prompt env raw_prompt previous_context =
      (lowScoreMessage, [Stage.contextAttach, Stage.scoring]) := by
    simp only [optimize_prompt]
    rw [if_pos h]
  rw [hop]
  refine ⟨rfl, ?_, ?_, ?_, ?_, ?_⟩ <;> decide

/-- C1 witness: the two-word-scoreless request `"tell me something"`
scores 0 and takes the early exit. -/
theorem strict_low_score_early_exit_witness :
    (score_prompt (attachContext testEnv "tell me something" none)).total_score ≤ 3 ∧
    (optimize_prompt testEnv "tell me something" none).1 = lowScoreMessage ∧
    Stage.decomposition ∉ (optimize_prompt testEnv "tell me something" none).2 := by
  have h : (score_prompt (attachContext testEnv "tell me something" none)).total_score ≤ 3 := by
    decide
  have hc := strict_low_score_early_exit testEnv "tell me something" none h
  exact ⟨h, hc.1, hc.2.2.2.2.1⟩

/-- C6 counterexample: the empty request does not score a total of 0 —
the "+1 if no vague words" clarity bonus fires on the empty string, so
its total score is 1. -/
theorem empty_request_score_counterexample :
    (score_prompt "").total_score ≠ 0 := by decide

/-- C6 (amended): every empty or whitespace-only request scores a total
of exactly 1 (clarity 1 from the no-vague-words bonus, specificity 0,
structure 0), which is still at most 3, so strict-mode `optimize_prompt`
returns the low-score clarification message rather than failing. -/
theorem whitespace_request_clarification (s : String) (env : Env)
    (hs : s.toList.all Char.isWhitespace = true) :
    (score_prompt s).total_score = 1 ∧
    (optimize_prompt env s none).1 = lowScoreMessage := by
  have hlow := lowerStr_all_ws s hs
  have hwc := pyWordCount_ws s hs
  have hA := any_contains_eq_false (lowerStr s) hlow action_verbs (by decide)
  have hV := any_contains_eq_false (lowerStr s) hlow vague_words (by decide)
  have hT := any_contains_eq_false (lowerStr s) hlow technical_words (by decide)
  have hC := any_contains_eq_false (lowerStr s) hlow constraint_words (by decide)
  have hP := any_contains_eq_false s hs punctuation_marks (by decide)
  have hF := any_contains_eq_false (lowerStr s) hlow formatting_words (by decide)
  have hU := leadingUpperBonus_ws s hs
  have hscore : score_prompt s = ⟨1, 0, 0, 1⟩ := by
    simp only [score_prompt, hA, hV, hT, hC, hP, hF, hU, hwc]
    norm_num
  refine ⟨by rw [hscore], ?_⟩
  have hctx : attachContext env s none = s := rfl
  simp only [optimize_prompt, hctx, hscore]
  norm_num

/-- C6 witness: the empty request, under a concrete oracle environment. -/
theorem whitespace_request_clarification_witness :
    (score_prompt "").total_score = 1 ∧
    (optimize_prompt testEnv "" none).1 = lowScoreMessage :=
  whitespace_request_clarification "" testEnv (by decide)

/-- C3: once strict mode reaches the RewriteDecision stage (score above 3
and not flagged ambiguous), a rewrite is triggered exactly when the total
score is below 6 or the request was flagged ambiguous, and a
rewrite-triggered run's output starts with the literal
`[LLM Rewrite Triggered]` marker. -/
theorem rewrite_decision_trigger (env : Env) (raw_prompt : String)
    (previous_context : Option String)
    (hscore : ¬ (score_prompt (attachContext env raw_prompt previous_context)).total_score ≤ 3)
    (hamb : env.isAmbiguous (attachContext env raw_prompt previous_context) = false) :
    (Stage.rewriteCall ∈ (optimize_prompt env raw_prompt previous_context).2 ↔
      ((score_prompt (attachContext env raw_prompt previous_context)).total_score < 6 ∨
        env.isAmbiguous (attachContext env raw_prompt previous_context) = true)) ∧
    (Stage.rewriteCall ∈ (optimize_prompt env raw_prompt previous_context).2 →
      ∃ rest, (optimize_prompt env raw_prompt previous_context).1 =
        "[LLM Rewrite Triggered]" ++ rest) := by
  simp only [optimize_prompt, if_neg hscore, hamb, Bool.false_eq_true, if_false,
    Bool.or_false]
  by_cases h6 : (score_prompt (attachContext env raw_prompt previous_context)).total_score < 6
  · have hd := decide_eq_true h6
    simp only [hd, if_true, List.mem_append, List.mem_cons,
      List.not_mem_nil, or_false]
    constructor
    · simp [h6]
    · intro _
      refine ⟨"\n\n" ++ String.join ((env.decompose
          (env.rewrite (attachContext env raw_prompt previous_context))).map formatSubtask), ?_⟩
      rw [← String.append_assoc]
      congr 1
  · have hd := decide_eq_false h6
    simp only [hd, if_false, List.mem_append, List.mem_cons,
      List.not_mem_nil, or_false]
    constructor
    · simp [h6]
    · simp

/-- C3 witness: `"Explain"` scores 4 (above the early-exit cut, below 6),
is not flagged ambiguous by the concrete oracle, so its run triggers the
rewrite and the output carries the marker prefix. -/
theorem rewrite_decision_trigger_witness :
    (Stage.rewriteCall ∈ (optimize_prompt testEnv "Explain" none).2 ↔
      ((score_prompt (attachContext testEnv "Explain" none)).total_score < 6 ∨
        testEnv.isAmbiguous (attachContext testEnv "Explain" none) = true)) ∧
    (Stage.rewriteCall ∈ (optimize_prompt testEnv "Explain" none).2 →
      ∃ rest, (optimize_prompt testEnv "Explain" none).1 =
        "[LLM Rewrite Triggered]" ++ rest) :=
  rewrite_decision_trigger testEnv "Explain" none (by decide) rfl

/-- C4: the rule-based ambiguity backend (modelled from the spec) flags a
request exactly when its word count is below 3, or it contains a vague
word and no domain keyword; in particular `"tell me something"` is
flagged. -/
theorem rule_is_ambiguous_spec (prompt : String) :
    (rule_is_ambiguous prompt = true ↔
      (pyWordCount prompt < 3 ∨
        ((∃ v ∈ ambVagueWords, strContains (lowerStr prompt) v = true) ∧
          ∀ d ∈ domainKeywords, ¬ strContains (lowerStr prompt) d = true))) ∧
    rule_is_ambiguous "tell me something" = true := by
  constructor
  · simp [rule_is_ambiguous, Bool.or_eq_true, Bool.and_eq_true, List.any_eq_true,
      List.any_eq_false, decide_eq_true_eq]
  · decide

/-- C4 witness: a two-word request is flagged by the word-count rule. -/
theorem rule_is_ambiguous_spec_witness :
    rule_is_ambiguous "hi" = true ∧ rule_is_ambiguous "tell me something" = true :=
  ⟨(rule_is_ambiguous_spec "hi").1.mpr (Or.inl (by decide)),
   (rule_is_ambiguous_spec "hi").2⟩

/-- C5 counterexample: an external analysis response whose `"subtasks"`
field is present but empty makes `decompose_prompt` return the empty
list, so the claimed never-empty contract fails for that response. -/
theorem decompose_prompt_counterexample :
    decompose_prompt (some []) "Explain CNN and compare with RNN" = [] := rfl

/-- C5 (amended): `decompose_prompt` returns the whole input as its single
element exactly when the response carries no `"subtasks"` field; a present
field is returned unchanged, so the result is non-empty for every response
whose `"subtasks"` list, when present, is non-empty — but a
present-and-empty field yields the empty list. -/
theorem decompose_prompt_amended (subtasksField : Option (List String)) (prompt : String) :
    (subtasksField = none → decompose_prompt subtasksField prompt = [prompt]) ∧
    (∀ l, subtasksField = some l → decompose_prompt subtasksField prompt = l) ∧
    ((∀ l, subtasksField = some l → l ≠ []) →
      decompose_prompt subtasksField prompt ≠ []) := by
  refine ⟨?_, ?_, ?_⟩
  · intro h; subst h; rfl
  · intro l h; subst h; rfl
  · intro h
    cases hf : subtasksField with
    | none => subst hf; simp [decompose_prompt]
    | some l =>
      subst hf
      simpa [decompose_prompt] using h l rfl

/-- C5 witness: a response without a `"subtasks"` field yields the input
as the single, non-empty result. -/
theorem decompose_prompt_amended_witness :
    decompose_prompt none "Explain CNN" = ["Explain CNN"] ∧
    decompose_prompt none "Explain CNN" ≠ [] :=
  ⟨(decompose_prompt_amended none "Explain CNN").1 rfl,
   (decompose_prompt_amended none "Explain CNN").2.2 (fun _ hl => nomatch hl)⟩

/-- A non-throttling failure stops the retry loop at once, whatever the
attempt index and remaining budget. -/
theorem call_gemini_run_nonthrottle (responses : Nat → GenOutcome) (a r : Nat) (e : String)
    (h : responses a = GenOutcome.failure e) (ht : isThrottling e = false) :
    call_gemini_run responses a r = (Except.error e, []) := by
  cases r with
  | zero => simp [call_gemini_run, h]
  | succ r => simp [call_gemini_run, h, ht]

/-- When every attempt in the window is a throttled failure, the loop
consumes its whole budget, sleeping `2^attempt + 1` per retry, and
propagates the final attempt's error. -/
theorem call_gemini_run_all_throttled (responses : Nat → GenOutcome) (errs : Nat → String) :
    ∀ (r a : Nat),
      (∀ i, a ≤ i → i ≤ a + r →
        responses i = GenOutcome.failure (errs i) ∧ isThrottling (errs i) = true) →
      call_gemini_run responses a r =
        (Except.error (errs (a + r)), (List.range r).map (fun i => 2 ^ (a + i) + 1))
  | 0, a, h => by
    have := h a (Nat.le_refl a) (Nat.le_add_right a 0)
    simp [call_gemini_run, this.1]
  | r + 1, a, h => by
    have ha := h a (Nat.le_refl a) (Nat.le_add_right a (r + 1))
    have hrest := call_gemini_run_all_throttled responses errs r (a + 1)
      (fun i h1 h2 => h i (Nat.le_of_succ_le h1) (by omega))
    have hidx : a + 1 + r = a + (r + 1) := by omega
    rw [hidx] at hrest
    have hlist : (List.range (r + 1)).map (fun i => 2 ^ (a + i) + 1) =
        (2 ^ a + 1) :: (List.range r).map (fun i => 2 ^ (a + 1 + i) + 1) := by
      have h2 : (List.range r).map ((fun i => 2 ^ (a + i) + 1) ∘ Nat.succ) =
          (List.range r).map (fun i => 2 ^ (a + 1 + i) + 1) :=
        List.map_congr_left (fun i _ => by
          have hia : a + Nat.succ i = a + 1 + i := by omega
          simp [Function.comp_apply, hia])
      rw [List.range_succ_eq_map, List.map_cons, List.map_map, h2]
      simp
    simp only [call_gemini_run, ha.1, ha.2, if_true]
    rw [hrest, hlist]

/-- The number of retries (backoff sleeps) never exceeds the budget. -/
theorem call_gemini_run_delays_le (responses : Nat → GenOutcome) :
    ∀ (r a : Nat), (call_gemini_run responses a r).2.length ≤ r
  | 0, a => by simp [call_gemini_run]
  | r + 1, a => by
    simp only [call_gemini_run]
    cases responses a with
    | success t => simp
    | failure e =>
      by_cases ht : isThrottling e = true
      · simp only [ht, if_true, List.length_cons]
        exact Nat.succ_le_succ (call_gemini_run_delays_le responses r (a + 1))
      · simp only [Bool.not_eq_true] at ht
        simp [ht]

/-- C7: `call_gemini` (with the source's `max_retries = 3`) propagates a
non-throttling failure immediately with no retry; under persistent
throttling it retries with backoff delays `2^attempt + 1` (2, 3, 5
seconds), capped at 3 retries plus one final uncaught attempt whose error
surfaces to the caller; and the number of backoff sleeps never exceeds
the cap. -/
theorem call_gemini_retry_policy (responses : Nat → GenOutcome) :
    (∀ e, responses 0 = GenOutcome.failure e → isThrottling e = false →
      call_gemini responses 3 = (Except.error e, [])) ∧
    (∀ errs : Nat → String,
      (∀ i, i ≤ 3 → responses i = GenOutcome.failure (errs i) ∧ isThrottling (errs i) = true) →
      call_gemini responses 3 = (Except.error (errs 3), [2, 3, 5])) ∧
    (call_gemini responses 3).2.length ≤ 3 := by
  refine ⟨?_, ?_, call_gemini_run_delays_le responses 3 0⟩
  · intro e h0 ht
    exact call_gemini_run_nonthrottle responses 0 3 e h0 ht
  · intro errs h
    have := call_gemini_run_all_throttled responses errs 3 0
      (fun i h1 h2 => h i (by omega))
    simpa using this

/-- C7 witness: four consecutive throttled failures exhaust the retries
with backoff delays 2, 3 and 5, and the quota error reaches the caller;
a plain failure on the first attempt is propagated with no retry. -/
theorem call_gemini_retry_policy_witness :
    call_gemini (fun _ => GenOutcome.failure "429 quota") 3 =
      (Except.error "429 quota", [2, 3, 5]) ∧
    call_gemini (fun _ => GenOutcome.failure "invalid key") 3 =
      (Except.error "invalid key", []) :=
  ⟨(call_gemini_retry_policy (fun _ => GenOutcome.failure "429 quota")).2.1
      (fun _ => "429 quota")
      (fun i _ => ⟨rfl, (by decide : isThrottling "429 quota" = true)⟩),
   (call_gemini_retry_policy (fun _ => GenOutcome.failure "invalid key")).1
      "invalid key" rfl (by decide)⟩

theorem mem_ite_singleton {α : Type} (x a : α) (c : Prop) [Decidable c] :
    (x ∈ if c then [a] else []) ↔ c ∧ x = a := by
  split <;> simp [*]

theorem mem_instructionsRaw (x : String) (intents : List String) :
    x ∈ instructionsRaw intents ↔
      (("explanation" ∈ intents ∧ x = instrExplanation) ∨
       ("comparison" ∈ intents ∧ x = instrComparison) ∨
       ("coding" ∈ intents ∧ x = instrCoding) ∨
       ("analysis" ∈ intents ∧ x = instrAnalysis) ∨
       ("summarization" ∈ intents ∧ x = instrSummarization) ∨
       ("tutorial" ∈ intents ∧ x = instrTutorial) ∨
       (("creative" ∈ intents ∧ "coding" ∉ intents) ∧ x = instrCreative)) := by
  simp only [instructionsRaw, List.mem_append, mem_ite_singleton, or_assoc]

theorem mem_build_of_mem_raw (x : String) (intents : List String)
    (hx : x ∈ instructionsRaw intents) :
    x ∈ build_instructions_for_intents intents := by
  unfold build_instructions_for_intents
  split
  · next h => rw [h] at hx; exact absurd hx (List.not_mem_nil x)
  · exact hx

/-- C9: `_build_instructions_for_intents` includes the fixed sentence for
each present label among explanation, comparison, coding, analysis,
summarization and tutorial; the creative sentence is included when
creative is present and coding absent, and never when coding is present;
when no label contributes, the result is the single default instruction —
so it is never empty. -/
theorem build_instructions_complete (intents : List String) :
    ("explanation" ∈ intents → instrExplanation ∈ build_instructions_for_intents intents) ∧
    ("comparison" ∈ intents → instrComparison ∈ build_instructions_for_intents intents) ∧
    ("coding" ∈ intents → instrCoding ∈ build_instructions_for_intents intents) ∧
    ("analysis" ∈ intents → instrAnalysis ∈ build_instructions_for_intents intents) ∧
    ("summarization" ∈ intents → instrSummarization ∈ build_instructions_for_intents intents) ∧
    ("tutorial" ∈ intents → instrTutorial ∈ build_instructions_for_intents intents) ∧
    ("creative" ∈ intents → "coding" ∉ intents →
      instrCreative ∈ build_instructions_for_intents intents) ∧
    ("coding" ∈ intents → instrCreative ∉ build_instructions_for_intents intents) ∧
    (("explanation" ∉ intents ∧ "comparison" ∉ intents ∧ "coding" ∉ intents ∧
      "analysis" ∉ intents ∧ "summarization" ∉ intents ∧ "tutorial" ∉ intents ∧
      ¬("creative" ∈ intents ∧ "coding" ∉ intents)) →
      build_instructions_for_intents intents = [instrDefault]) ∧
    build_instructions_for_intents intents ≠ [] := by
  refine ⟨?_, ?_, ?_, ?_, ?_, ?_, ?_, ?_, ?_, ?_⟩
  · intro h
    exact mem_build_of_mem_raw _ _ ((mem_instructionsRaw _ _).mpr (by tauto))
  · intro h
    exact mem_build_of_mem_raw _ _ ((mem_instructionsRaw _ _).mpr (by tauto))
  · intro h
    exact mem_build_of_mem_raw _ _ ((mem_instructionsRaw _ _).mpr (by tauto))
  · intro h
    exact mem_build_of_mem_raw _ _ ((mem_instructionsRaw _ _).mpr (by tauto))
  · intro h
    exact mem_build_of_mem_raw _ _ ((mem_instructionsRaw _ _).mpr (by tauto))
  · intro h
    exact mem_build_of_mem_raw _ _ ((mem_instructionsRaw _ _).mpr (by tauto))
  · intro h hnc
    exact mem_build_of_mem_raw _ _ ((mem_instructionsRaw _ _).mpr (by tauto))
  · intro h hmem
    unfold build_instructions_for_intents at hmem
    split at hmem
    · simp only [List.mem_singleton] at hmem
      exact absurd hmem (by decide)
    · rw [mem_instructionsRaw] at hmem
      rcases hmem with ⟨_, he⟩ | ⟨_, he⟩ | ⟨_, he⟩ | ⟨_, he⟩ | ⟨_, he⟩ | ⟨_, he⟩ |
        ⟨⟨_, hnc⟩, _⟩
      · exact absurd he (by decide)
      · exact absurd he (by decide)
      · exact absurd he (by decide)
      · exact absurd he (by decide)
      · exact absurd he (by decide)
      · exact absurd he (by decide)
      · exact hnc h
  · rintro ⟨h1, h2, h3, h4, h5, h6, h7⟩
    have h8 : "creative" ∉ intents := fun hc => h7 ⟨hc, h3⟩
    have hraw : instructionsRaw intents = [] := by
      simp [instructionsRaw, h1, h2, h3, h4, h5, h6, h7, h8]
    unfold build_instructions_for_intents
    rw [if_pos hraw]
  · unfold build_instructions_for_intents
    split
    · simp
    · next h => exact h

/-- C9 witness: with detected labels coding and creative, the coding
instruction appears and the creative one is suppressed. -/
theorem build_instructions_complete_witness :
    instrCoding ∈ build_instructions_for_intents ["coding", "creative"] ∧
    instrCreative ∉ build_instructions_for_intents ["coding", "creative"] ∧
    build_instructions_for_intents ["coding", "creative"] ≠ [] := by
  have h := build_instructions_complete ["coding", "creative"]
  exact ⟨h.2.2.1 (by decide), h.2.2.2.2.2.2.2.1 (by decide),
    h.2.2.2.2.2.2.2.2.2⟩

theorem matchedIntents_sub (prompt : String) :
    ∀ l ∈ matchedIntents prompt, l ∈ intentOrder :=
  fun _ hl => (List.mem_filter.mp hl).1

theorem matchedIntents_nodup (prompt : String) : (matchedIntents prompt).Nodup :=
  List.Nodup.filter _ (by decide : intentOrder.Nodup)

theorem detect_intents_ne_nil (prompt : String) : detect_intents prompt ≠ [] := by
  simp only [detect_intents]
  split
  · exact List.cons_ne_nil "general" []
  · next h =>
    intro hcontra
    have hperm := List.perm_insertionSort priRel (matchedIntents prompt)
    rw [hcontra] at hperm
    have hdet : matchedIntents prompt = [] := hperm.symm.eq_nil
    rw [hdet] at h
    exact h rfl

theorem matched_mem_iff (prompt name : String) (hname : name ∈ intentOrder) :
    name ∈ matchedIntents prompt ↔
      ((intentKeywords name).any fun k => strContains (lowerStr prompt) k) = true := by
  unfold matchedIntents
  rw [List.mem_filter]
  simp [hname]

/-- C10: for every input, `detect_intents` returns a non-empty,
duplicate-free list whose labels are drawn from the 11 keyword-backed
labels plus `general`, and `general` occurs only as the sole element. -/
theorem detect_intents_invariants (prompt : String) :
    detect_intents prompt ≠ [] ∧
    (detect_intents prompt).Nodup ∧
    (∀ l ∈ detect_intents prompt, l ∈ intentOrder ∨ l = "general") ∧
    ("general" ∈ detect_intents prompt → detect_intents prompt = ["general"]) := by
  refine ⟨detect_intents_ne_nil prompt, ?_, ?_, ?_⟩
  · simp only [detect_intents]
    split
    · exact List.nodup_singleton "general"
    · exact ((List.perm_insertionSort priRel (matchedIntents prompt)).nodup_iff).mpr
        (matchedIntents_nodup prompt)
  · simp only [detect_intents]
    split
    · intro l hl
      rw [List.mem_singleton] at hl
      exact Or.inr hl
    · intro l hl
      have hl' := (List.perm_insertionSort priRel (matchedIntents prompt)).mem_iff.mp hl
      exact Or.inl (matchedIntents_sub prompt l hl')
  · simp only [detect_intents]
    split
    · intro _; rfl
    · intro hg
      have hg' := (List.perm_insertionSort priRel (matchedIntents prompt)).mem_iff.mp hg
      exact absurd (matchedIntents_sub prompt _ hg') (by decide)

/-- C10 witness: an input matching no keyword list yields exactly
`["general"]`. -/
theorem detect_intents_invariants_witness :
    detect_intents "zzz" = ["general"] ∧ detect_intents "zzz" ≠ [] :=
  ⟨(detect_intents_invariants "zzz").2.2.2 (by decide),
   (detect_intents_invariants "zzz").1⟩

/-- C8: `detect_intents` returns its labels sorted by the fixed priority
comparison; `detect_intent` is the first element of that sorted list; and
any text whose matched label set is exactly {question, coding, comparison}
has primary label `comparison`. -/
theorem detect_intents_priority (prompt : String) :
    List.Sorted priRel (detect_intents prompt) ∧
    detect_intent prompt = (detect_intents prompt).headI ∧
    ((("comparison" ∈ matchedIntents prompt ∧ "coding" ∈ matchedIntents prompt ∧
       "question" ∈ matchedIntents prompt) ∧
      ("explanation" ∉ matchedIntents prompt ∧ "creative" ∉ matchedIntents prompt ∧
       "analysis" ∉ matchedIntents prompt ∧ "instruction" ∉ matchedIntents prompt ∧
       "research" ∉ matchedIntents prompt ∧ "problem_solving" ∉ matchedIntents prompt ∧
       "tutorial" ∉ matchedIntents prompt ∧ "summarization" ∉ matchedIntents prompt)) →
      detect_intent prompt = "comparison") := by
  refine ⟨?_, ?_, ?_⟩
  · simp only [detect_intents]
    split
    · exact List.sorted_singleton "general"
    · exact List.sorted_insertionSort priRel (matchedIntents prompt)
  · cases h : detect_intents prompt with
    | nil => exact absurd h (detect_intents_ne_nil prompt)
    | cons x xs =>
      unfold detect_intent
      rw [h]
      rfl
  · rintro ⟨⟨hc, hcod, hq⟩, n1, n2, n3, n4, n5, n6, n7, n8⟩
    have hfalse : ∀ name, name ∈ intentOrder → name ∉ matchedIntents prompt →
        ((intentKeywords name).any fun k => strContains (lowerStr prompt) k) = false := by
      intro name hn hnm
      cases hv : (intentKeywords name).any fun k => strContains (lowerStr prompt) k with
      | true => exact absurd ((matched_mem_iff prompt name hn).mpr hv) hnm
      | false => rfl
    have t1 := (matched_mem_iff prompt "comparison" (by decide)).mp hc
    have t2 := (matched_mem_iff prompt "coding" (by decide)).mp hcod
    have t3 := (matched_mem_iff prompt "question" (by decide)).mp hq
    have f1 := hfalse "explanation" (by decide) n1
    have f2 := hfalse "creative" (by decide) n2
    have f3 := hfalse "analysis" (by decide) n3
    have f4 := hfalse "instruction" (by decide) n4
    have f5 := hfalse "research" (by decide) n5
    have f6 := hfalse "problem_solving" (by decide) n6
    have f7 := hfalse "tutorial" (by decide) n7
    have f8 := hfalse "summarization" (by decide) n8
    have hfilter : matchedIntents prompt = ["comparison", "coding", "question"] := by
      simp only [matchedIntents, intentOrder, List.filter,
        t1, t2, t3, f1, f2, f3, f4, f5, f6, f7, f8]
    have hdet : detect_intents prompt = ["comparison", "coding", "question"] := by
      simp only [detect_intents]
      rw [hfilter]
      rfl
    unfold detect_intent
    rw [hdet]

/-- C8 witness: `"which python vs java"` matches exactly the comparison,
coding and question keyword lists, and its primary label is comparison. -/
theorem detect_intents_priority_witness :
    detect_intent "which python vs java" = "comparison" := by
  apply (detect_intents_priority "which python vs java").2.2
  have hm : matchedIntents "which python vs java" = ["comparison", "coding", "question"] := by
    rfl
  refine ⟨⟨?_, ?_, ?_⟩, ?_, ?_, ?_, ?_, ?_, ?_, ?_, ?_⟩ <;> rw [hm] <;> decide

end PromptOpt
